import Mathlib

/-!
Verification development for the PubMed retrieval-and-normalization pipeline
(class PubMedScraper in scraper.py).

The Python code is shallowly embedded as executable Lean definitions:

* XML element trees (xml.etree.ElementTree) become the inductive type XElem.
  An element has a tag, an optional text (ElementTree gives text = None for an
  element with no text node, so text is Option String), and a list of children.
  The ElementTree query elem.find with a path of the form .//T searches the
  proper descendants of elem in document (preorder) order; elem.find with a
  plain tag T searches only the direct children.
* HTML documents (BeautifulSoup) become the inductive type HNode, with text
  nodes and elements carrying a class list.
* Fallible Python code is embedded in Except PyErr; the except clauses of the
  source, which catch exactly requests.RequestException, are embedded by the
  combinator tryReq that intercepts only PyErr.requestException.
* Values coming back from response.json() are embedded as the type Json; the
  Python expression o.get(k, d) raises AttributeError on a non-dict o, which
  the embedding mirrors.
* A Python f-string interpolates None as the four letters None; the helper
  pyStr embeds that conversion.
* The behaviour of the three upstream endpoints is an explicit oracle
  (structure Upstream): each call either fails at transport level, or yields a
  status code and a body.  The body of the search endpoint is the JSON parse
  outcome (none embeds an unparseable body, since response.json then raises
  requests JSONDecodeError, a subclass of RequestException); the body of the
  fetch endpoint is the XML parse outcome of response.text; the body of a
  detail page is the soup of the HTML.
-/

/-- An XML element: tag, optional text, children (xml.etree.ElementTree). -/
inductive XElem : Type where
  | mk (tag : String) (text : Option String) (children : List XElem)
deriving Repr

def XElem.tag : XElem → String
  | .mk t _ _ => t

def XElem.text : XElem → Option String
  | .mk _ t _ => t

def XElem.children : XElem → List XElem
  | .mk _ _ c => c

mutual

/-- Proper descendants of an element in document (preorder) order. -/
def XElem.descendants : XElem → List XElem
  | .mk _ _ cs => XElem.descList cs

/-- All elements of a forest together with their descendants, preorder. -/
def XElem.descList : List XElem → List XElem
  | [] => []
  | c :: cs => c :: XElem.descendants c ++ XElem.descList cs

end

/-- elem.findall with path .//t : all proper descendants tagged t. -/
def findallDesc (e : XElem) (t : String) : List XElem :=
  e.descendants.filter (fun c => c.tag == t)

/-- elem.find with path .//t : first proper descendant tagged t. -/
def findDesc (e : XElem) (t : String) : Option XElem :=
  (findallDesc e t).head?

/-- elem.find with a plain tag: first direct child tagged t. -/
def findChild (e : XElem) (t : String) : Option XElem :=
  e.children.find? (fun c => c.tag == t)

/-- elem.find with path .//t1/t2 : first t2 child of a t1 descendant,
scanning t1 descendants in document order. -/
def findPath2 (e : XElem) (t1 t2 : String) : Option XElem :=
  ((findallDesc e t1).flatMap (fun j => j.children.filter (fun c => c.tag == t2))).head?

/-- Python str() applied to an optional string: None renders as "None".
This is what an f-string does to a possibly-None interpolated value. -/
def pyStr : Option String → String
  | none => "None"
  | some s => s

/-- The dict built by PubMedScraper._extract_article_data.  Fields whose
Python value can be None are Option String. -/
structure Article where
  pmid : Option String
  title : Option String
  abstract : String
  authors : List (Option String)
  journal : Option String
  year : Option String
  url : String
deriving Repr, DecidableEq

/-- The author loop of _extract_article_data (lines 118-125 of scraper.py):
for each Author element, if both LastName and ForeName children exist, append
the f-string "{last.text}, {first.text}"; if only LastName exists, append
last.text itself (which may be None); otherwise append nothing. -/
def authorsLoop : List XElem → List (Option String)
  | [] => []
  | a :: rest =>
    match findChild a "LastName", findChild a "ForeName" with
    | some l, some f => some (pyStr l.text ++ ", " ++ pyStr f.text) :: authorsLoop rest
    | some l, none => l.text :: authorsLoop rest
    | none, _ => authorsLoop rest

/-- The generator (part.text for part in abstract_parts if part.text):
the texts of the elements, skipping falsy texts (None and the empty string). -/
def truthyTexts : List XElem → List String
  | [] => []
  | p :: rest =>
    match p.text with
    | some s => if s == "" then truthyTexts rest else s :: truthyTexts rest
    | none => truthyTexts rest

/-- PubMedScraper._extract_article_data: extract one Article from a
PubmedArticle element, or None when it has no MedlineCitation descendant. -/
def extract_article_data (articleElem : XElem) : Option Article :=
  match findDesc articleElem "MedlineCitation" with
  | none => none
  | some medline =>
    let pmid : Option String :=
      match findDesc medline "PMID" with
      | some e => e.text
      | none => some "Unknown"
    let title : Option String :=
      match findDesc medline "ArticleTitle" with
      | some e => e.text
      | none => some "No title available"
    let abstractParts := findallDesc medline "AbstractText"
    let abstract : String :=
      if abstractParts.isEmpty then "No abstract available."
      else String.intercalate " " (truthyTexts abstractParts)
    let authors : List (Option String) :=
      (authorsLoop (findallDesc medline "Author")).take 5
    let journal : Option String :=
      match findPath2 medline "Journal" "Title" with
      | some e => e.text
      | none => some "Unknown Journal"
    let year : Option String :=
      match findPath2 medline "PubDate" "Year" with
      | some e => e.text
      | none => some "N/A"
    some { pmid := pmid, title := title, abstract := abstract,
           authors := authors, journal := journal, year := year,
           url := "https://pubmed.ncbi.nlm.nih.gov/" ++ pyStr pmid ++ "/" }

/-- The outcome of running xml.etree.ElementTree.fromstring on a response
body: either a ParseError or a root element. -/
inductive XmlInput : Type where
  | parseError
  | parsed (root : XElem)

/-- The accumulating loop of _parse_xml_response: append the extracted
article for each PubmedArticle element when extraction yields one (every
dict the extractor returns is non-empty, hence truthy). -/
def parseLoop : List XElem → List Article
  | [] => []
  | e :: rest =>
    match extract_article_data e with
    | some a => a :: parseLoop rest
    | none => parseLoop rest

/-- PubMedScraper._parse_xml_response: on a ParseError return the empty list;
otherwise extract from every PubmedArticle descendant of the root. -/
def parse_xml_response : XmlInput → List Article
  | .parseError => []
  | .parsed root => parseLoop (findallDesc root "PubmedArticle")


/-- JSON values, as returned by response.json(). -/
inductive Json : Type where
  | null
  | bool (b : Bool)
  | num (n : Int)
  | str (s : String)
  | arr (xs : List Json)
  | obj (fields : List (String × Json))
deriving Repr

/-- The Python exceptions the embedded code can raise.  requestException
stands for requests.RequestException and all its subclasses (Timeout,
ConnectionError, HTTPError from raise_for_status, and the JSONDecodeError
raised by response.json on an unparseable body). -/
inductive PyErr : Type where
  | requestException
  | attributeError
  | typeError
deriving Repr, DecidableEq

/-- One upstream call as seen by the code: either the transport fails
(session.get raises a RequestException), or a response arrives with a status
code and a body of the given type. -/
inductive Transport (β : Type) : Type where
  | failure
  | response (status : Nat) (body : β)

/-- session.get followed by response.raise_for_status: transport failure
raises a RequestException, a 4xx or 5xx status raises HTTPError (also a
RequestException), otherwise the body is available. -/
def httpGet {β : Type} : Transport β → Except PyErr β
  | .failure => .error .requestException
  | .response status body =>
    if 400 ≤ status ∧ status < 600 then .error .requestException else .ok body

/-- A try/except requests.RequestException block: intercept exactly
PyErr.requestException, turning it into the fallback value of the except
clause; let every other exception propagate. -/
def tryReq {α : Type} (body : Except PyErr α) (fallback : α) : Except PyErr α :=
  match body with
  | .error .requestException => .ok fallback
  | r => r

/-- response.json(): an unparseable body raises requests JSONDecodeError,
which the except RequestException clauses catch. -/
def pyJson : Option Json → Except PyErr Json
  | none => .error .requestException
  | some j => .ok j

/-- The Python expression o.get(key, default): on a dict, the value at the
key (first binding) or the default; on any other object, AttributeError. -/
def jsonGet (j : Json) (key : String) (dflt : Json) : Except PyErr Json :=
  match j with
  | .obj fields =>
    match fields.find? (fun kv => kv.1 == key) with
    | some kv => .ok kv.2
    | none => .ok dflt
  | _ => .error .attributeError

/-- Python truthiness of a JSON-shaped value ("if not article_ids"). -/
def pyFalsy : Json → Bool
  | .null => true
  | .bool b => !b
  | .num n => n == 0
  | .str s => s == ""
  | .arr xs => xs.isEmpty
  | .obj fs => fs.isEmpty

/-- The string elements of a JSON array, left to right; a non-string member
raises TypeError. -/
def strElems : List Json → Except PyErr (List String)
  | [] => .ok []
  | j :: rest =>
    match j with
    | Json.str s =>
      match strElems rest with
      | .ok ss => .ok (s :: ss)
      | .error e => .error e
    | _ => .error PyErr.typeError

/-- The Python expression ",".join(article_ids) on the object the search
step returned: joins a list of strings; a list with a non-string member
raises TypeError; a string is joined character by character; a dict joins
its keys; any other object raises TypeError. -/
def pyJoinIds : Json → Except PyErr String
  | .arr xs =>
    match strElems xs with
    | .ok ss => .ok (String.intercalate "," ss)
    | .error e => .error e
  | .str s => .ok (String.intercalate "," (s.toList.map (fun c => String.mk [c])))
  | .obj fs => .ok (String.intercalate "," (fs.map (fun kv => kv.1)))
  | _ => .error .typeError

def MAX_ARTICLES : Nat := 10

/-- search_articles resolves max_results=None to Config.MAX_ARTICLES. -/
def effectiveMax : Option Nat → Nat
  | none => MAX_ARTICLES
  | some n => n

/-- PubMedScraper.search_articles: request the search endpoint (the retmax
parameter only shapes the request), raise_for_status, parse the JSON body,
and return data.get("esearchresult", \x7b\x7d).get("idlist", []); the
try/except catches exactly RequestException and returns the empty list. -/
def search_articles (_retmax : Nat) (resp : Transport (Option Json)) :
    Except PyErr Json :=
  tryReq (
    match httpGet resp with
    | .error e => .error e
    | .ok body =>
      match pyJson body with
      | .error e => .error e
      | .ok data =>
        match jsonGet data "esearchresult" (Json.obj []) with
        | .error e => .error e
        | .ok esr => jsonGet esr "idlist" (Json.arr []))
  (Json.arr [])

/-- Network calls the pipeline issues, in order. -/
inductive Call : Type where
  | search (query : String)
  | fetch (idsStr : String)
  | page (url : String)
deriving Repr, DecidableEq

/-- PubMedScraper.fetch_article_details: on a falsy article_ids return the
empty list without a network call; join the ids (outside the try block, so a
TypeError propagates); then get the fetch endpoint inside a try/except
RequestException that falls back to the empty list, and parse the XML body.
Also returns the list of network calls made. -/
def fetch_article_details (articleIds : Json) (resp : Transport XmlInput) :
    Except PyErr (List Article) × List Call :=
  if pyFalsy articleIds then (.ok [], [])
  else
    match pyJoinIds articleIds with
    | .error e => (.error e, [])
    | .ok idsStr =>
      (tryReq (
        match httpGet resp with
        | .error e => .error e
        | .ok xml => .ok (parse_xml_response xml)) [],
       [Call.fetch idsStr])

/-- A BeautifulSoup node: a text node, or an element with a tag, a class
list and children. -/
inductive HNode : Type where
  | txt (s : String)
  | elem (tag : String) (classes : List String) (children : List HNode)
deriving Repr

mutual

/-- Proper descendants of an HTML node in document (preorder) order. -/
def HNode.descendants : HNode → List HNode
  | .txt _ => []
  | .elem _ _ cs => HNode.descList cs

/-- All nodes of a forest together with their descendants, preorder. -/
def HNode.descList : List HNode → List HNode
  | [] => []
  | c :: cs => c :: HNode.descendants c ++ HNode.descList cs

end

/-- BeautifulSoup tag matching: soup.find(tag, class_=c) matches an element
with that tag whose class list contains c; with class_ omitted, any element
with that tag. -/
def hMatch (t : String) (cls : Option String) : HNode → Bool
  | .txt _ => false
  | .elem tg classes _ =>
    tg == t && (match cls with
                | none => true
                | some c => classes.contains c)

/-- soup.find over a whole document (a forest of top-level nodes): first
matching element in document order. -/
def docFind (doc : List HNode) (t : String) (cls : Option String) : Option HNode :=
  ((HNode.descList doc).filter (hMatch t cls)).head?

/-- tag.find_all: all matching proper descendants in document order. -/
def findAllIn (n : HNode) (t : String) (cls : Option String) : List HNode :=
  n.descendants.filter (hMatch t cls)

/-- The descendant text strings of a node, in document order. -/
def hTexts (n : HNode) : List String :=
  n.descendants.filterMap (fun m =>
    match m with
    | HNode.txt s => some s
    | _ => none)

/-- Python str.strip(): drop whitespace from both ends. -/
def pyStrip (s : String) : String :=
  String.mk
    ((s.toList.dropWhile Char.isWhitespace).reverse.dropWhile
      Char.isWhitespace).reverse

/-- tag.get_text(strip=True): strip each descendant string, skip the ones
that become empty, and concatenate. -/
def getTextStrip (n : HNode) : String :=
  String.join (((hTexts n).map pyStrip).filter (fun s => !(s == "")))

/-- The collection loop shared by both regions of scrape_full_article_page:
take get_text(strip=True) of each found button and keep it when non-empty. -/
def kwLoop : List HNode → List String
  | [] => []
  | kw :: rest =>
    let text := getTextStrip kw
    if text == "" then kwLoop rest else text :: kwLoop rest

/-- The two lists scrape_full_article_page gathers from a fetched page. -/
structure SuppData where
  keywords : List String
  mesh_terms : List String
deriving Repr, DecidableEq

/-- The HTML-parsing part of scrape_full_article_page: the keywords come
from the buttons of class keyword-actions-trigger inside the first div of
class keywords-section; the mesh terms from all buttons inside the first div
of class mesh-terms; a missing region leaves its list empty. -/
def extractSupp (doc : List HNode) : SuppData :=
  let keywords :=
    match docFind doc "div" (some "keywords-section") with
    | some sec => kwLoop (findAllIn sec "button" (some "keyword-actions-trigger"))
    | none => []
  let meshTerms :=
    match docFind doc "div" (some "mesh-terms") with
    | some sec => kwLoop (findAllIn sec "button" none)
    | none => []
  { keywords := keywords, mesh_terms := meshTerms }

def PUBMED_BASE_URL : String := "https://pubmed.ncbi.nlm.nih.gov"

/-- The detail-page URL scrape_full_article_page builds from the pmid via an
f-string (a None pmid renders as the text None). -/
def pageUrl (pmid : Option String) : String :=
  PUBMED_BASE_URL ++ "/" ++ pyStr pmid ++ "/"

/-- The behaviour of the three upstream endpoints during one pipeline run. -/
structure Upstream where
  searchResp : Transport (Option Json)
  fetchResp : Transport XmlInput
  pageResp : String → Transport (List HNode)

/-- PubMedScraper.scrape_full_article_page: fetch the detail page of the
pmid and parse it; the try/except RequestException falls back to empty
keyword and mesh-term lists.  Everything after the get is total, so the
function never raises. -/
def scrape_full_article_page (up : Upstream) (pmid : Option String) : SuppData :=
  match httpGet (up.pageResp (pageUrl pmid)) with
  | .error _ => { keywords := [], mesh_terms := [] }
  | .ok doc => extractSupp doc

/-- One article dict after article.update(extra): the seven parsed fields
are untouched and the keywords and mesh_terms keys are set. -/
structure EnrichedArticle where
  base : Article
  keywords : List String
  mesh_terms : List String
deriving Repr, DecidableEq

/-- The enrichment of one fetched article inside get_research_data. -/
def enrich1 (up : Upstream) (a : Article) : EnrichedArticle :=
  { base := a,
    keywords := (scrape_full_article_page up a.pmid).keywords,
    mesh_terms := (scrape_full_article_page up a.pmid).mesh_terms }

/-- The per-article enrichment loop of get_research_data, also recording
the page fetches it performs (the time.sleep pacing has no data effect and
is not modelled). -/
def enrichLoop (up : Upstream) : List Article → List EnrichedArticle × List Call
  | [] => ([], [])
  | a :: rest =>
    let supp := scrape_full_article_page up a.pmid
    let r := enrichLoop up rest
    ({ base := a, keywords := supp.keywords, mesh_terms := supp.mesh_terms } :: r.1,
     Call.page (pageUrl a.pmid) :: r.2)

/-- The outcome of one get_research_data run: the returned value (or the
propagated exception) and the network calls issued. -/
structure PipelineRun where
  result : Except PyErr (List EnrichedArticle)
  calls : List Call

/-- PubMedScraper.get_research_data: search, return [] on a falsy id list,
fetch the details, then enrich each article in order. -/
def get_research_data (up : Upstream) (query : String) (maxResults : Option Nat) :
    PipelineRun :=
  match search_articles (effectiveMax maxResults) up.searchResp with
  | .error e => { result := .error e, calls := [Call.search query] }
  | .ok articleIds =>
    if pyFalsy articleIds then { result := .ok [], calls := [Call.search query] }
    else
      match fetch_article_details articleIds up.fetchResp with
      | (.error e, fcs) => { result := .error e, calls := Call.search query :: fcs }
      | (.ok articles, fcs) =>
        let r := enrichLoop up articles
        { result := .ok r.1, calls := Call.search query :: fcs ++ r.2 }

/-! Predicates used to state the amended claims. -/

/-- A found element carries non-empty text; an absent element is fine
(the extractor substitutes its placeholder).  ElementTree never produces an
element whose text is the empty string (an empty element has text None), so
requiring the text to be non-empty matches reachable documents. -/
def textPresent : Option XElem → Bool
  | none => true
  | some e =>
    match e.text with
    | none => false
    | some s => !(s == "")

/-- The LastName and ForeName children of an Author element, when present,
carry text. -/
def authorTexted (a : XElem) : Bool :=
  textPresent (findChild a "LastName") && textPresent (findChild a "ForeName")

/-- Every element the extractor consults inside a MedlineCitation carries
text when present. -/
def entryTexted (m : XElem) : Bool :=
  textPresent (findDesc m "PMID") &&
  textPresent (findDesc m "ArticleTitle") &&
  textPresent (findPath2 m "Journal" "Title") &&
  textPresent (findPath2 m "PubDate" "Year") &&
  (findallDesc m "Author").all authorTexted

def articleElemTexted (e : XElem) : Bool :=
  match findDesc e "MedlineCitation" with
  | none => true
  | some m => entryTexted m

def goodDoc (root : XElem) : Bool :=
  (findallDesc root "PubmedArticle").all articleElemTexted

/-- An Author element that has a LastName child and whose name children all
carry text. -/
def authorFull (a : XElem) : Bool :=
  (findChild a "LastName").isSome && authorTexted a

/-- Stated from the claim wording of C4: the entry contributed by one
Author element is the text of its LastName child, followed by a comma and
the text of its ForeName child when that child is present. -/
def specAuthorText (a : XElem) : String :=
  match findChild a "LastName", findChild a "ForeName" with
  | some l, some f => l.text.getD "" ++ ", " ++ f.text.getD ""
  | some l, none => l.text.getD ""
  | none, _ => ""

/-- Stated from the claim wording of C8: the trimmed non-empty visible
texts of the direct child button elements of a region. -/
def HNode.children : HNode → List HNode
  | .txt _ => []
  | .elem _ _ cs => cs

def claimChildButtonTexts (region : HNode) : List String :=
  ((region.children.filter (hMatch "button" none)).map getTextStrip).filter
    (fun s => !(s == ""))

def isStrJson : Json → Bool
  | .str _ => true
  | _ => false

/-- The idlist member of a search response is a JSON array of strings. -/
def goodIdlist : Json → Bool
  | .arr xs => xs.all isStrJson
  | _ => false

/-- The esearchresult member is an object whose idlist member, when
present, is an array of strings. -/
def goodEsr : Json → Bool
  | .obj inner =>
    match inner.find? (fun kv2 => kv2.1 == "idlist") with
    | none => true
    | some kv2 => goodIdlist kv2.2
  | _ => false

/-- A parseable search body the code can walk without an AttributeError or a
later TypeError: a JSON object whose esearchresult member, when present, is
an object whose idlist member, when present, is an array of strings. -/
def goodSearchBody : Json → Bool
  | .obj fields =>
    match fields.find? (fun kv => kv.1 == "esearchresult") with
    | none => true
    | some kv => goodEsr kv.2
  | _ => false

/-- The search endpoint either fails at transport level, returns an error
status, returns an unparseable body, or returns a body of the good shape. -/
def goodSearchResp : Transport (Option Json) → Bool
  | .failure => true
  | .response status body =>
    if 400 ≤ status ∧ status < 600 then true
    else
      match body with
      | none => true
      | some j => goodSearchBody j

/-- How many PubmedArticle entries the body of the fetch response holds. -/
def fetchEntryCount : Transport XmlInput → Nat
  | .failure => 0
  | .response _ .parseError => 0
  | .response _ (.parsed root) => (findallDesc root "PubmedArticle").length

/-! Helper lemmas about the embedded loops. -/

theorem parseLoop_eq (l : List XElem) :
    parseLoop l = l.filterMap extract_article_data := by
  induction l with
  | nil => rfl
  | cons e rest ih =>
    unfold parseLoop
    cases h : extract_article_data e <;> simp [List.filterMap_cons, h, ih]

theorem truthyTexts_eq (l : List XElem) :
    truthyTexts l = (l.filterMap XElem.text).filter (fun s => !(s == "")) := by
  induction l with
  | nil => rfl
  | cons p rest ih =>
    unfold truthyTexts
    cases h : p.text with
    | none => simp [List.filterMap_cons, h, ih]
    | some s =>
      cases hs : (s == "") <;>
        simp [List.filterMap_cons, List.filter_cons, h, hs, ih]

theorem kwLoop_eq (l : List HNode) :
    kwLoop l = (l.map getTextStrip).filter (fun s => !(s == "")) := by
  induction l with
  | nil => rfl
  | cons kw rest ih =>
    unfold kwLoop
    cases hs : (getTextStrip kw == "") <;>
      simp [List.filter_cons, hs, ih]

theorem enrichLoop_eq (up : Upstream) (l : List Article) :
    enrichLoop up l =
      (l.map (enrich1 up), l.map (fun a => Call.page (pageUrl a.pmid))) := by
  induction l with
  | nil => rfl
  | cons a rest ih => simp [enrichLoop, enrich1, ih]

theorem textPresent_spec (e : XElem) (h : textPresent (some e) = true) :
    ∃ s, e.text = some s ∧ (s == "") = false := by
  cases ht : e.text with
  | none => simp [textPresent, ht] at h
  | some s =>
    refine ⟨s, rfl, ?_⟩
    simpa [textPresent, ht] using h

theorem authorsLoop_ne_none (l : List XElem) (h : l.all authorTexted = true) :
    ∀ x ∈ authorsLoop l, x ≠ none := by
  induction l with
  | nil => intro x hx; cases hx
  | cons a rest ih =>
    rw [List.all_cons, Bool.and_eq_true] at h
    obtain ⟨ha, hrest⟩ := h
    unfold authorTexted at ha
    rw [Bool.and_eq_true] at ha
    obtain ⟨hlast, _⟩ := ha
    intro x hx
    unfold authorsLoop at hx
    cases hl : findChild a "LastName" with
    | none =>
      rw [hl] at hx
      exact ih hrest x hx
    | some le =>
      rw [hl] at hlast
      obtain ⟨s, hs, _⟩ := textPresent_spec le hlast
      cases hf : findChild a "ForeName" with
      | none =>
        rw [hl, hf] at hx
        rcases List.mem_cons.mp hx with h1 | h1
        · rw [h1, hs]; exact Option.some_ne_none s
        · exact ih hrest x h1
      | some fe =>
        rw [hl, hf] at hx
        rcases List.mem_cons.mp hx with h1 | h1
        · rw [h1]; exact Option.some_ne_none _
        · exact ih hrest x h1

theorem authorsLoop_eq_map (l : List XElem) (h : l.all authorFull = true) :
    authorsLoop l = l.map (fun a => some (specAuthorText a)) := by
  induction l with
  | nil => rfl
  | cons a rest ih =>
    rw [List.all_cons, Bool.and_eq_true] at h
    obtain ⟨ha, hrest⟩ := h
    unfold authorFull at ha
    rw [Bool.and_eq_true] at ha
    obtain ⟨hsome, ht⟩ := ha
    unfold authorTexted at ht
    rw [Bool.and_eq_true] at ht
    obtain ⟨hlast, hfore⟩ := ht
    cases hl : findChild a "LastName" with
    | none => rw [hl] at hsome; simp at hsome
    | some le =>
      rw [hl] at hlast
      obtain ⟨s, hs, _⟩ := textPresent_spec le hlast
      cases hf : findChild a "ForeName" with
      | none =>
        simp [authorsLoop, specAuthorText, hl, hf, hs, ih hrest]
      | some fe =>
        rw [hf] at hfore
        obtain ⟨t, htx, _⟩ := textPresent_spec fe hfore
        simp [authorsLoop, specAuthorText, hl, hf, hs, htx, pyStr, ih hrest]

theorem mem_parseLoop (l : List XElem) (r : Article) (h : r ∈ parseLoop l) :
    ∃ e ∈ l, extract_article_data e = some r := by
  rw [parseLoop_eq] at h
  obtain ⟨e, he, hx⟩ := List.mem_filterMap.mp h
  exact ⟨e, he, hx⟩

theorem isStrJson_spec (j : Json) (h : isStrJson j = true) :
    ∃ s, j = Json.str s := by
  cases j with
  | str s => exact ⟨s, rfl⟩
  | null => exact absurd h (by simp [isStrJson])
  | bool b => exact absurd h (by simp [isStrJson])
  | num n => exact absurd h (by simp [isStrJson])
  | arr xs => exact absurd h (by simp [isStrJson])
  | obj fs => exact absurd h (by simp [isStrJson])

theorem httpGet_err {β : Type} (st : Nat) (b : β) (h : 400 ≤ st ∧ st < 600) :
    httpGet (Transport.response st b) = .error .requestException := by
  simp [httpGet, h]

theorem httpGet_ok {β : Type} (st : Nat) (b : β) (h : ¬(400 ≤ st ∧ st < 600)) :
    httpGet (Transport.response st b) = .ok b := by
  simp [httpGet, h]

theorem strElems_ok (ids : List Json) (h : ids.all isStrJson = true) :
    ∃ ss : List String, strElems ids = Except.ok ss := by
  induction ids with
  | nil => exact ⟨[], rfl⟩
  | cons j rest ih =>
    rw [List.all_cons, Bool.and_eq_true] at h
    obtain ⟨hj, hrest⟩ := h
    obtain ⟨ss, hss⟩ := ih hrest
    obtain ⟨s, rfl⟩ := isStrJson_spec j hj
    exact ⟨s :: ss, by simp [strElems, hss]⟩

theorem joinIds_ok (ids : List Json) (h : ids.all isStrJson = true) :
    ∃ s, pyJoinIds (Json.arr ids) = .ok s := by
  obtain ⟨ss, hss⟩ := strElems_ok ids h
  exact ⟨String.intercalate "," ss, by simp [pyJoinIds, hss]⟩

theorem search_good (n : Nat) (r : Transport (Option Json))
    (h : goodSearchResp r = true) :
    ∃ ids : List Json,
      search_articles n r = .ok (Json.arr ids) ∧ ids.all isStrJson = true := by
  cases r with
  | failure => exact ⟨[], rfl, rfl⟩
  | response status body =>
    by_cases hst : 400 ≤ status ∧ status < 600
    · refine ⟨[], ?_, rfl⟩
      unfold search_articles
      rw [httpGet_err status body hst]
      rfl
    · cases body with
      | none =>
        refine ⟨[], ?_, rfl⟩
        unfold search_articles
        rw [httpGet_ok status none hst]
        rfl
      | some j =>
        have h2 : (if 400 ≤ status ∧ status < 600 then true
            else goodSearchBody j) = true := h
        rw [if_neg hst] at h2
        clear h
        have h := h2
        clear h2
        cases j with
        | null => simp [goodSearchBody] at h
        | bool b => simp [goodSearchBody] at h
        | num n2 => simp [goodSearchBody] at h
        | str s => simp [goodSearchBody] at h
        | arr xs => simp [goodSearchBody] at h
        | obj fields =>
          have h3 : (match fields.find? (fun kv => kv.1 == "esearchresult") with
              | none => true
              | some kv => goodEsr kv.2) = true := h
          cases hfind : fields.find? (fun kv => kv.1 == "esearchresult") with
          | none =>
            refine ⟨[], ?_, rfl⟩
            unfold search_articles
            rw [httpGet_ok status (some (Json.obj fields)) hst]
            simp [pyJson, jsonGet, hfind, tryReq]
          | some kv =>
            rw [hfind] at h3
            have h4 : goodEsr kv.2 = true := h3
            cases hv : kv.2 with
            | obj inner =>
              rw [hv] at h4
              have h5 : (match inner.find? (fun kv2 => kv2.1 == "idlist") with
                  | none => true
                  | some kv2 => goodIdlist kv2.2) = true := h4
              cases hfind2 : inner.find? (fun kv2 => kv2.1 == "idlist") with
              | none =>
                refine ⟨[], ?_, rfl⟩
                unfold search_articles
                rw [httpGet_ok status (some (Json.obj fields)) hst]
                simp [pyJson, jsonGet, hfind, hv, hfind2, tryReq]
              | some kv2 =>
                rw [hfind2] at h5
                have h6 : goodIdlist kv2.2 = true := h5
                cases hv2 : kv2.2 with
                | arr xs =>
                  refine ⟨xs, ?_, by rw [hv2] at h6; simpa [goodIdlist] using h6⟩
                  unfold search_articles
                  rw [httpGet_ok status (some (Json.obj fields)) hst]
                  simp [pyJson, jsonGet, hfind, hv, hfind2, hv2, tryReq]
                | null => rw [hv2] at h6; simp [goodIdlist] at h6
                | bool b => rw [hv2] at h6; simp [goodIdlist] at h6
                | num n2 => rw [hv2] at h6; simp [goodIdlist] at h6
                | str s => rw [hv2] at h6; simp [goodIdlist] at h6
                | obj fs => rw [hv2] at h6; simp [goodIdlist] at h6
            | null => rw [hv] at h4; simp [goodEsr] at h4
            | bool b => rw [hv] at h4; simp [goodEsr] at h4
            | num n2 => rw [hv] at h4; simp [goodEsr] at h4
            | str s => rw [hv] at h4; simp [goodEsr] at h4
            | arr xs => rw [hv] at h4; simp [goodEsr] at h4

/-! Claim C5. -/

/-- C5: for every input string that cannot be parsed as XML at all (the
ParseError outcome of ET.fromstring), the XML Record Parser returns an empty
sequence; the embedded parser is a total function, so no exception reaches
the caller. -/
theorem c5_unparseable_xml_empty :
    parse_xml_response XmlInput.parseError = [] := rfl

/-! Claim C10. -/

def c10entry : XElem :=
  XElem.mk "PubmedArticle" none
    [XElem.mk "Wrapper" none
      [XElem.mk "MedlineCitation" none
        [XElem.mk "PMID" (some "99") []]]]

def c10root : XElem :=
  XElem.mk "PubmedArticleSet" none [c10entry]

/-- C10 counterexample: this article entry has NO MedlineCitation CHILD
element (its only child is a Wrapper element), yet the parser still produces
a record for it, because the code looks for a MedlineCitation DESCENDANT
(path .//MedlineCitation), which the Wrapper contains.  The claim, which
says such an entry is omitted, is false as stated. -/
theorem c10_counterexample :
    c10entry.children.filter (fun c => c.tag == "MedlineCitation") = []
    ∧ (parse_xml_response (XmlInput.parsed c10root)).length = 1 :=
  ⟨rfl, rfl⟩

/-- C10 (amended): an article entry that lacks a MedlineCitation DESCENDANT
element is silently omitted: the parser output is exactly the entries on
which extraction succeeds, extraction yields nothing precisely when the
entry has no MedlineCitation descendant, and the parser may therefore
return fewer records than there are article entries in the document. -/
theorem c10_no_medline_descendant_omitted (root : XElem) :
    parse_xml_response (XmlInput.parsed root) =
      (findallDesc root "PubmedArticle").filterMap extract_article_data
    ∧ (∀ e, findDesc e "MedlineCitation" = none →
        extract_article_data e = none)
    ∧ (parse_xml_response (XmlInput.parsed root)).length ≤
        (findallDesc root "PubmedArticle").length := by
  refine ⟨parseLoop_eq _, ?_, ?_⟩
  · intro e he
    unfold extract_article_data
    rw [he]
  · show (parseLoop (findallDesc root "PubmedArticle")).length ≤ _
    rw [parseLoop_eq]
    exact List.length_filterMap_le _ _

/-- Witness for C10 (amended) at a concrete entry with no MedlineCitation
descendant at all: extraction yields nothing. -/
theorem c10_no_medline_descendant_omitted_witness :
    extract_article_data (XElem.mk "PubmedArticle" none []) = none :=
  (c10_no_medline_descendant_omitted c10root).2.1
    (XElem.mk "PubmedArticle" none []) rfl

/-! Claim C6. -/

/-- C6: whenever the Search Resolver yields an empty identifier list, the
pipeline returns an empty sequence immediately, and the only network call of
the whole run is the search itself: neither the Detail Fetcher nor the
Supplementary Page Extractor is ever invoked. -/
theorem c6_empty_idlist_short_circuits (up : Upstream) (q : String)
    (mr : Option Nat)
    (h : search_articles (effectiveMax mr) up.searchResp = .ok (Json.arr [])) :
    (get_research_data up q mr).result = .ok []
    ∧ (get_research_data up q mr).calls = [Call.search q] := by
  unfold get_research_data
  rw [h]
  exact ⟨rfl, rfl⟩

def upC6 : Upstream :=
  { searchResp := Transport.response 200 (some (Json.obj
      [("esearchresult", Json.obj [("idlist", Json.arr [])])])),
    fetchResp := Transport.failure,
    pageResp := fun _ => Transport.failure }

/-- Witness for C6 at a concrete upstream that resolves an empty idlist. -/
theorem c6_empty_idlist_short_circuits_witness :
    (get_research_data upC6 "stroke" none).result = .ok []
    ∧ (get_research_data upC6 "stroke" none).calls = [Call.search "stroke"] :=
  c6_empty_idlist_short_circuits upC6 "stroke" none rfl

/-! Claim C7. -/

/-- C7: for every parsed article entry, the abstract field equals the texts
of the AbstractText segments of the entry, in document order, joined with a
single space (a segment with no text contributes nothing, matching "text
segments found"); when no AbstractText segment is present it equals the
fixed placeholder string. -/
theorem c7_abstract_join (e m : XElem) (r : Article)
    (hm : findDesc e "MedlineCitation" = some m)
    (hx : extract_article_data e = some r) :
    (findallDesc m "AbstractText" = [] →
      r.abstract = "No abstract available.")
    ∧ (findallDesc m "AbstractText" ≠ [] →
      r.abstract = String.intercalate " "
        (((findallDesc m "AbstractText").filterMap XElem.text).filter
          (fun s => !(s == "")))) := by
  unfold extract_article_data at hx
  rw [hm] at hx
  simp only [Option.some.injEq] at hx
  subst hx
  constructor
  · intro hempty
    simp [hempty]
  · intro hne
    have hie : (findallDesc m "AbstractText").isEmpty = false := by
      cases hlist : findallDesc m "AbstractText" with
      | nil => exact absurd hlist hne
      | cons a as => rfl
    show (if (findallDesc m "AbstractText").isEmpty then _
          else String.intercalate " " (truthyTexts _)) = _
    rw [hie, truthyTexts_eq]
    rfl

def c7entry : XElem :=
  XElem.mk "PubmedArticle" none
    [XElem.mk "MedlineCitation" none
      [XElem.mk "PMID" (some "5") [],
       XElem.mk "AbstractText" (some "Part one.") [],
       XElem.mk "AbstractText" (some "Part two.") []]]

def c7medline : XElem :=
  XElem.mk "MedlineCitation" none
    [XElem.mk "PMID" (some "5") [],
     XElem.mk "AbstractText" (some "Part one.") [],
     XElem.mk "AbstractText" (some "Part two.") []]

def c7rec : Article :=
  { pmid := some "5", title := some "No title available",
    abstract := "Part one. Part two.", authors := [],
    journal := some "Unknown Journal", year := some "N/A",
    url := "https://pubmed.ncbi.nlm.nih.gov/5/" }

/-- Witness for C7 at a concrete entry with two abstract segments. -/
theorem c7_abstract_join_witness :
    c7rec.abstract = String.intercalate " "
      (((findallDesc c7medline "AbstractText").filterMap XElem.text).filter
        (fun s => !(s == ""))) :=
  (c7_abstract_join c7entry c7medline c7rec rfl rfl).2 (by
    intro hx
    have hlen : (findallDesc c7medline "AbstractText").length = 2 := rfl
    rw [hx] at hlen
    exact absurd hlen (by decide))

/-! Claim C9. -/

/-- C9: the enrichment step only sets the keywords and mesh_terms fields:
whenever the fetch step returns a list of articles, the pipeline returns
exactly those articles in their fetched order, each merely extended with the
two supplementary lists obtained by scraping its own page (both empty when
that scrape fails), the seven parsed fields of every record unchanged and no
record dropped. -/
theorem c9_enrichment_frame (up : Upstream) (q : String) (mr : Option Nat)
    (ids : Json) (arts : List Article) (fcs : List Call)
    (h1 : search_articles (effectiveMax mr) up.searchResp = .ok ids)
    (h2 : pyFalsy ids = false)
    (h3 : fetch_article_details ids up.fetchResp = (.ok arts, fcs)) :
    (get_research_data up q mr).result = .ok (arts.map (enrich1 up))
    ∧ (arts.map (enrich1 up)).map EnrichedArticle.base = arts := by
  constructor
  · unfold get_research_data
    rw [h1]
    simp [h2, h3, enrichLoop_eq]
  · rw [List.map_map]
    have : (EnrichedArticle.base ∘ enrich1 up) = id := by
      funext a
      rfl
    rw [this, List.map_id]

def c9root : XElem :=
  XElem.mk "PubmedArticleSet" none
    [XElem.mk "PubmedArticle" none
      [XElem.mk "MedlineCitation" none
        [XElem.mk "PMID" (some "1") []]]]

def c9art : Article :=
  { pmid := some "1", title := some "No title available",
    abstract := "No abstract available.", authors := [],
    journal := some "Unknown Journal", year := some "N/A",
    url := "https://pubmed.ncbi.nlm.nih.gov/1/" }

def upC9 : Upstream :=
  { searchResp := Transport.response 200 (some (Json.obj
      [("esearchresult", Json.obj [("idlist", Json.arr [Json.str "1"])])])),
    fetchResp := Transport.response 200 (XmlInput.parsed c9root),
    pageResp := fun _ => Transport.response 200
      [HNode.elem "div" ["keywords-section"]
        [HNode.elem "button" ["keyword-actions-trigger"] [HNode.txt "stroke"]]] }

/-- Witness for C9 at a concrete run with one fetched record whose page
scrape yields one keyword. -/
theorem c9_enrichment_frame_witness :
    (get_research_data upC9 "stroke" none).result =
      .ok ([c9art].map (enrich1 upC9))
    ∧ ([c9art].map (enrich1 upC9)).map EnrichedArticle.base = [c9art] :=
  c9_enrichment_frame upC9 "stroke" none (Json.arr [Json.str "1"]) [c9art]
    [Call.fetch "1"] rfl rfl rfl

/-! Claim C2. -/

def c2root : XElem :=
  XElem.mk "PubmedArticleSet" none
    [XElem.mk "PubmedArticle" none
      [XElem.mk "MedlineCitation" none
        [XElem.mk "PMID" none []]]]

/-- C2 counterexample: the parser accepts this document and produces one
record, but the record has a null id: the PMID element is PRESENT yet empty
(ElementTree text None), and the code takes pmid_elem.text verbatim; the
placeholder Unknown is substituted only when the element is ABSENT.  The
claim that id is never null is false as stated. -/
theorem c2_counterexample :
    (parse_xml_response (XmlInput.parsed c2root)).map Article.pmid =
      [none] := rfl

/-- C2 (amended): every record has every attribute present, and the
attributes are non-null (with id moreover non-empty) provided every element
the extractor consults carries non-empty text when present; an element that
is present but empty makes the corresponding attribute the Python None.
The abstract is a (non-null) string by construction. -/
theorem c2_nonnull_fields (root : XElem) (r : Article)
    (hg : goodDoc root = true)
    (hm : r ∈ parse_xml_response (XmlInput.parsed root)) :
    r.pmid ≠ none ∧ r.pmid ≠ some "" ∧ r.title ≠ none ∧ r.journal ≠ none
    ∧ r.year ≠ none ∧ (∀ a ∈ r.authors, a ≠ none) := by
  obtain ⟨e, he, hx⟩ := mem_parseLoop (findallDesc root "PubmedArticle") r hm
  have hge : articleElemTexted e = true :=
    List.all_eq_true.mp hg e he
  cases hmed : findDesc e "MedlineCitation" with
  | none =>
    unfold extract_article_data at hx
    rw [hmed] at hx
    exact absurd hx (by simp)
  | some m =>
    have ht : entryTexted m = true := by
      unfold articleElemTexted at hge
      rw [hmed] at hge
      exact hge
    unfold extract_article_data at hx
    rw [hmed] at hx
    simp only [Option.some.injEq] at hx
    subst hx
    unfold entryTexted at ht
    simp only [Bool.and_eq_true] at ht
    obtain ⟨⟨⟨⟨h1, h2⟩, h3⟩, h4⟩, h5⟩ := ht
    refine ⟨?_, ?_, ?_, ?_, ?_, ?_⟩
    · show (match findDesc m "PMID" with
        | some e => e.text
        | none => some "Unknown") ≠ none
      cases hp : findDesc m "PMID" with
      | none => simp
      | some el =>
        rw [hp] at h1
        obtain ⟨s, hs, _⟩ := textPresent_spec el h1
        simp [hs]
    · show (match findDesc m "PMID" with
        | some e => e.text
        | none => some "Unknown") ≠ some ""
      cases hp : findDesc m "PMID" with
      | none => simp
      | some el =>
        rw [hp] at h1
        obtain ⟨s, hs, hsne⟩ := textPresent_spec el h1
        show el.text ≠ some ""
        rw [hs]
        intro hcon
        injection hcon with hcon
        rw [hcon] at hsne
        simp at hsne
    · show (match findDesc m "ArticleTitle" with
        | some e => e.text
        | none => some "No title available") ≠ none
      cases hp : findDesc m "ArticleTitle" with
      | none => simp
      | some el =>
        rw [hp] at h2
        obtain ⟨s, hs, _⟩ := textPresent_spec el h2
        simp [hs]
    · show (match findPath2 m "Journal" "Title" with
        | some e => e.text
        | none => some "Unknown Journal") ≠ none
      cases hp : findPath2 m "Journal" "Title" with
      | none => simp
      | some el =>
        rw [hp] at h3
        obtain ⟨s, hs, _⟩ := textPresent_spec el h3
        simp [hs]
    · show (match findPath2 m "PubDate" "Year" with
        | some e => e.text
        | none => some "N/A") ≠ none
      cases hp : findPath2 m "PubDate" "Year" with
      | none => simp
      | some el =>
        rw [hp] at h4
        obtain ⟨s, hs, _⟩ := textPresent_spec el h4
        simp [hs]
    · show ∀ a ∈ (authorsLoop (findallDesc m "Author")).take 5, a ≠ none
      intro a ha
      exact authorsLoop_ne_none (findallDesc m "Author") h5 a
        (List.take_subset 5 _ ha)

def c2wroot : XElem :=
  XElem.mk "PubmedArticleSet" none
    [XElem.mk "PubmedArticle" none
      [XElem.mk "MedlineCitation" none
        [XElem.mk "PMID" (some "7") [],
         XElem.mk "ArticleTitle" (some "T") [],
         XElem.mk "Author" none
           [XElem.mk "LastName" (some "Smith") [],
            XElem.mk "ForeName" (some "John") []],
         XElem.mk "Journal" none [XElem.mk "Title" (some "J") []],
         XElem.mk "PubDate" none [XElem.mk "Year" (some "2024") []]]]]

def c2wrec : Article :=
  { pmid := some "7", title := some "T", abstract := "No abstract available.",
    authors := [some "Smith, John"], journal := some "J", year := some "2024",
    url := "https://pubmed.ncbi.nlm.nih.gov/7/" }

/-- Witness for C2 (amended) at a concrete fully-texted document. -/
theorem c2_nonnull_fields_witness :
    c2wrec.pmid ≠ none ∧ c2wrec.pmid ≠ some "" ∧ c2wrec.title ≠ none
    ∧ c2wrec.journal ≠ none ∧ c2wrec.year ≠ none
    ∧ (∀ a ∈ c2wrec.authors, a ≠ none) :=
  c2_nonnull_fields c2wroot c2wrec rfl
    (show c2wrec ∈ [c2wrec] from List.mem_singleton.mpr rfl)

/-! Claim C4. -/

def c4root : XElem :=
  XElem.mk "PubmedArticleSet" none
    [XElem.mk "PubmedArticle" none
      [XElem.mk "MedlineCitation" none
        [XElem.mk "PMID" (some "2") [],
         XElem.mk "Author" none [XElem.mk "LastName" none []]]]]

/-- C4 counterexample: an Author element whose LastName child is present but
empty (and with no ForeName child) contributes the Python None to the
authors list, which is therefore not a sequence of LastName-formatted
strings as the claim states: here the single parsed record has authors equal
to the one-element list holding a null. -/
theorem c4_counterexample :
    (parse_xml_response (XmlInput.parsed c4root)).map Article.authors =
      [[(none : Option String)]] := rfl

/-- C4 (amended): in EVERY case the authors field has length at most 5 and
consists of the first five entries that the author loop generates from the
Author elements in document order; when moreover every Author element of
the entry has a LastName child and the name children carry text, those
entries are exactly the claim-format strings ("LastName, ForeName", or
just LastName when the ForeName child is absent) of the FIRST FIVE Author
elements.  Without the text condition an empty LastName element
contributes a null entry (or renders as the text None inside the joined
string), see the counterexample. -/
theorem c4_authors_format (e m : XElem) (r : Article)
    (hm : findDesc e "MedlineCitation" = some m)
    (hx : extract_article_data e = some r) :
    r.authors.length ≤ 5
    ∧ r.authors = (authorsLoop (findallDesc m "Author")).take 5
    ∧ ((findallDesc m "Author").all authorFull = true →
        r.authors =
          ((findallDesc m "Author").map
            (fun a => some (specAuthorText a))).take 5) := by
  unfold extract_article_data at hx
  rw [hm] at hx
  simp only [Option.some.injEq] at hx
  subst hx
  refine ⟨?_, rfl, ?_⟩
  · show ((authorsLoop (findallDesc m "Author")).take 5).length ≤ 5
    exact List.length_take_le 5 _
  · intro ha
    show (authorsLoop (findallDesc m "Author")).take 5 = _
    rw [authorsLoop_eq_map (findallDesc m "Author") ha]

def c4wroot : XElem :=
  XElem.mk "PubmedArticleSet" none
    [XElem.mk "PubmedArticle" none
      [XElem.mk "MedlineCitation" none
        [XElem.mk "PMID" (some "3") [],
         XElem.mk "Author" none
           [XElem.mk "LastName" (some "Smith") [],
            XElem.mk "ForeName" (some "John") []],
         XElem.mk "Author" none
           [XElem.mk "LastName" (some "Doe") []]]]]

def c4wentry : XElem :=
  XElem.mk "PubmedArticle" none
    [XElem.mk "MedlineCitation" none
      [XElem.mk "PMID" (some "3") [],
       XElem.mk "Author" none
         [XElem.mk "LastName" (some "Smith") [],
          XElem.mk "ForeName" (some "John") []],
       XElem.mk "Author" none
         [XElem.mk "LastName" (some "Doe") []]]]

def c4wmedline : XElem :=
  XElem.mk "MedlineCitation" none
    [XElem.mk "PMID" (some "3") [],
     XElem.mk "Author" none
       [XElem.mk "LastName" (some "Smith") [],
        XElem.mk "ForeName" (some "John") []],
     XElem.mk "Author" none
       [XElem.mk "LastName" (some "Doe") []]]

def c4wrec : Article :=
  { pmid := some "3", title := some "No title available",
    abstract := "No abstract available.",
    authors := [some "Smith, John", some "Doe"],
    journal := some "Unknown Journal", year := some "N/A",
    url := "https://pubmed.ncbi.nlm.nih.gov/3/" }

/-- Witness for C4 (amended) at a concrete entry with two full authors,
also discharging the text condition of the format clause. -/
theorem c4_authors_format_witness :
    c4wrec.authors.length ≤ 5
    ∧ c4wrec.authors = (authorsLoop (findallDesc c4wmedline "Author")).take 5
    ∧ c4wrec.authors =
        ((findallDesc c4wmedline "Author").map
          (fun a => some (specAuthorText a))).take 5 :=
  ⟨(c4_authors_format c4wentry c4wmedline c4wrec rfl rfl).1,
   (c4_authors_format c4wentry c4wmedline c4wrec rfl rfl).2.1,
   (c4_authors_format c4wentry c4wmedline c4wrec rfl rfl).2.2 rfl⟩

/-! Claim C8. -/

def c8kwregion : HNode :=
  HNode.elem "div" ["keywords-section"]
    [HNode.elem "button" [] [HNode.txt "A"],
     HNode.elem "div" []
       [HNode.elem "button" ["keyword-actions-trigger"] [HNode.txt "B"]]]

def c8doc : List HNode := [c8kwregion]

/-- C8 counterexample: the claim reads the keywords as the visible text of
the CHILD interactive elements of the keywords region; the code instead
takes ALL DESCENDANT buttons, and only those carrying the
keyword-actions-trigger class.  On this page the keywords region has one
direct child button (text A, no trigger class) and one nested non-child
button with the trigger class (text B): the code yields [B] while the claim
wording yields [A]. -/
theorem c8_counterexample :
    (extractSupp c8doc).keywords = ["B"]
    ∧ claimChildButtonTexts c8kwregion = ["A"] :=
  ⟨by decide, by decide⟩

/-- C8 (amended): the extractor returns, for the keywords field, the
trimmed non-empty visible texts of the DESCENDANT buttons that carry the
keyword-actions-trigger class of the first keywords-section div of the
page, and for the subject-terms field those of ALL descendant buttons of
the first mesh-terms div, each in document order; absence of either region
yields an empty sequence for that field, not an error. -/
theorem c8_region_extraction (doc : List HNode) :
    (docFind doc "div" (some "keywords-section") = none →
      (extractSupp doc).keywords = [])
    ∧ (∀ sec, docFind doc "div" (some "keywords-section") = some sec →
      (extractSupp doc).keywords =
        ((findAllIn sec "button" (some "keyword-actions-trigger")).map
          getTextStrip).filter (fun s => !(s == "")))
    ∧ (docFind doc "div" (some "mesh-terms") = none →
      (extractSupp doc).mesh_terms = [])
    ∧ (∀ sec, docFind doc "div" (some "mesh-terms") = some sec →
      (extractSupp doc).mesh_terms =
        ((findAllIn sec "button" none).map getTextStrip).filter
          (fun s => !(s == ""))) := by
  refine ⟨?_, ?_, ?_, ?_⟩
  · intro h
    simp [extractSupp, h]
  · intro sec h
    simp [extractSupp, h, kwLoop_eq]
  · intro h
    simp [extractSupp, h]
  · intro sec h
    simp [extractSupp, h, kwLoop_eq]

def c8wdoc : List HNode :=
  [HNode.elem "div" ["keywords-section"]
    [HNode.elem "button" ["keyword-actions-trigger"] [HNode.txt " stroke "]],
   HNode.elem "div" ["mesh-terms"]
    [HNode.elem "button" [] [HNode.txt "Physical Therapy"]]]

def c8wkwregion : HNode :=
  HNode.elem "div" ["keywords-section"]
    [HNode.elem "button" ["keyword-actions-trigger"] [HNode.txt " stroke "]]

/-- Witness for C8 (amended) at a concrete page holding both regions. -/
theorem c8_region_extraction_witness :
    (extractSupp c8wdoc).keywords =
      ((findAllIn c8wkwregion "button" (some "keyword-actions-trigger")).map
        getTextStrip).filter (fun s => !(s == "")) :=
  (c8_region_extraction c8wdoc).2.1 c8wkwregion rfl

/-! Claim C3. -/

/-- The length of a returned record list; 0 for a propagated exception. -/
def resLen : Except PyErr (List EnrichedArticle) → Nat
  | .ok l => l.length
  | .error _ => 0

def c3fetchroot : XElem :=
  XElem.mk "PubmedArticleSet" none
    [XElem.mk "PubmedArticle" none
      [XElem.mk "MedlineCitation" none [XElem.mk "PMID" (some "1") []]],
     XElem.mk "PubmedArticle" none
      [XElem.mk "MedlineCitation" none [XElem.mk "PMID" (some "2") []]]]

def up3 : Upstream :=
  { searchResp := Transport.response 200 (some (Json.obj
      [("esearchresult", Json.obj [("idlist", Json.arr [Json.str "9"])])])),
    fetchResp := Transport.response 200 (XmlInput.parsed c3fetchroot),
    pageResp := fun _ => Transport.failure }

/-- C3 counterexample: with the bound 1 and a single resolved identifier,
an upstream fetch body holding two article entries makes the full pipeline
return two records, exceeding both the bound (1) and the number of resolved
identifiers (1): the code trusts the upstream to honor retmax and to return
one entry per id, and never truncates client-side. -/
theorem c3_counterexample :
    search_articles (effectiveMax (some 1)) up3.searchResp =
      .ok (Json.arr [Json.str "9"])
    ∧ resLen (get_research_data up3 "q" (some 1)).result = 2 :=
  ⟨rfl, rfl⟩

/-- C3 (amended): the record count is bounded by the requested bound and by
the number of resolved identifiers PROVIDED the upstream conforms: the
resolver yields at most the bound many identifiers and the fetch body holds
at most one article entry per identifier.  (The pipeline itself enforces no
bound; see the counterexample.) -/
theorem c3_bounded (up : Upstream) (q : String) (mr : Option Nat)
    (ids : List Json) (l : List EnrichedArticle)
    (h1 : search_articles (effectiveMax mr) up.searchResp = .ok (Json.arr ids))
    (h2 : ids.length ≤ effectiveMax mr)
    (h3 : fetchEntryCount up.fetchResp ≤ ids.length)
    (h4 : (get_research_data up q mr).result = .ok l) :
    l.length ≤ ids.length ∧ l.length ≤ effectiveMax mr := by
  suffices hlen : l.length ≤ ids.length from ⟨hlen, le_trans hlen h2⟩
  by_cases hf : pyFalsy (Json.arr ids) = true
  · have hres : (get_research_data up q mr).result = .ok [] := by
      unfold get_research_data
      rw [h1]
      simp [hf]
    rw [hres] at h4
    injection h4 with h5
    subst h5
    exact Nat.zero_le _
  · have hfl : pyFalsy (Json.arr ids) = false := Bool.eq_false_iff.mpr hf
    cases hj : pyJoinIds (Json.arr ids) with
    | error e2 =>
      have hres : (get_research_data up q mr).result = .error e2 := by
        unfold get_research_data
        rw [h1]
        simp [hfl, fetch_article_details, hj]
      rw [hres] at h4
      exact absurd h4 (by simp)
    | ok s =>
      cases hup : up.fetchResp with
      | failure =>
        have hres : (get_research_data up q mr).result = .ok [] := by
          unfold get_research_data
          rw [h1]
          simp [hfl, fetch_article_details, hj, hup, httpGet, tryReq,
            enrichLoop_eq]
        rw [hres] at h4
        injection h4 with h5
        subst h5
        exact Nat.zero_le _
      | response st body =>
        by_cases hst : 400 ≤ st ∧ st < 600
        · have hres : (get_research_data up q mr).result = .ok [] := by
            unfold get_research_data
            rw [h1]
            simp [hfl, fetch_article_details, hj, hup,
              httpGet_err st body hst, tryReq, enrichLoop_eq]
          rw [hres] at h4
          injection h4 with h5
          subst h5
          exact Nat.zero_le _
        · have hres : (get_research_data up q mr).result =
              .ok ((parse_xml_response body).map (enrich1 up)) := by
            unfold get_research_data
            rw [h1]
            simp [hfl, fetch_article_details, hj, hup,
              httpGet_ok st body hst, tryReq, enrichLoop_eq]
          rw [hres] at h4
          injection h4 with h5
          subst h5
          rw [List.length_map]
          cases body with
          | parseError => exact Nat.zero_le _
          | parsed root =>
            rw [hup] at h3
            show (parseLoop (findallDesc root "PubmedArticle")).length ≤ _
            rw [parseLoop_eq]
            exact le_trans (List.length_filterMap_le _ _) h3

def c3wroot : XElem :=
  XElem.mk "PubmedArticleSet" none
    [XElem.mk "PubmedArticle" none
      [XElem.mk "MedlineCitation" none [XElem.mk "PMID" (some "9") []]]]

def up3w : Upstream :=
  { searchResp := Transport.response 200 (some (Json.obj
      [("esearchresult", Json.obj [("idlist", Json.arr [Json.str "9"])])])),
    fetchResp := Transport.response 200 (XmlInput.parsed c3wroot),
    pageResp := fun _ => Transport.failure }

def c3wart : Article :=
  { pmid := some "9", title := some "No title available",
    abstract := "No abstract available.", authors := [],
    journal := some "Unknown Journal", year := some "N/A",
    url := "https://pubmed.ncbi.nlm.nih.gov/9/" }

/-- Witness for C3 (amended) at a conforming concrete upstream: one id,
one entry, bound 1. -/
theorem c3_bounded_witness :
    ([enrich1 up3w c3wart].length ≤ [Json.str "9"].length)
    ∧ ([enrich1 up3w c3wart].length ≤ effectiveMax (some 1)) :=
  c3_bounded up3w "q" (some 1) [Json.str "9"] [enrich1 up3w c3wart]
    rfl (by decide) (by decide) rfl

/-! Claim C1. -/

def up1 : Upstream :=
  { searchResp := Transport.response 200 (some (Json.arr [])),
    fetchResp := Transport.failure,
    pageResp := fun _ => Transport.failure }

/-- C1 counterexample: an upstream search response whose body is valid JSON
but not an object (here the JSON array with no elements) makes the
expression data.get("esearchresult", ...) raise an AttributeError inside
search_articles; the except clause catches only RequestException, so the
exception propagates out of get_research_data to its caller.  The claim
that the pipeline never raises for arbitrary response bodies is false as
stated. -/
theorem c1_counterexample :
    (get_research_data up1 "stroke" none).result =
      Except.error PyErr.attributeError := rfl

/-- C1 (amended): the pipeline returns a list and raises no exception for
every transport behaviour of the three endpoints and every fetch or page
body, PROVIDED every parseable JSON body of the search endpoint is an
object whose esearchresult member, when present, is an object whose idlist
member, when present, is an array of strings; a transport failure of the
search or of the fetch call is caught at its call site and degrades the
run to the empty list. -/
theorem c1_no_raise (up : Upstream) (q : String) (mr : Option Nat)
    (h : goodSearchResp up.searchResp = true) :
    (∃ l, (get_research_data up q mr).result = Except.ok l)
    ∧ (up.searchResp = Transport.failure →
        (get_research_data up q mr).result = Except.ok [])
    ∧ (up.fetchResp = Transport.failure →
        (get_research_data up q mr).result = Except.ok []) := by
  obtain ⟨ids, hs, hall⟩ := search_good (effectiveMax mr) up.searchResp h
  by_cases hf : pyFalsy (Json.arr ids) = true
  · have hres : (get_research_data up q mr).result = Except.ok [] := by
      unfold get_research_data
      rw [hs]
      simp [hf]
    exact ⟨⟨[], hres⟩, fun _ => hres, fun _ => hres⟩
  · have hfl : pyFalsy (Json.arr ids) = false := Bool.eq_false_iff.mpr hf
    obtain ⟨s, hj⟩ := joinIds_ok ids hall
    have harts : ∀ b : Transport XmlInput, ∃ arts,
        tryReq (match httpGet b with
          | .error e => .error e
          | .ok xml => Except.ok (parse_xml_response xml)) [] =
          Except.ok arts := by
      intro b
      cases b with
      | failure => exact ⟨[], rfl⟩
      | response st body =>
        by_cases hst : 400 ≤ st ∧ st < 600
        · refine ⟨[], ?_⟩
          rw [httpGet_err st body hst]
          rfl
        · refine ⟨parse_xml_response body, ?_⟩
          rw [httpGet_ok st body hst]
          rfl
    obtain ⟨arts, hfd⟩ := harts up.fetchResp
    have hres : (get_research_data up q mr).result =
        Except.ok (arts.map (enrich1 up)) := by
      unfold get_research_data
      rw [hs]
      simp [hfl, fetch_article_details, hj, hfd, enrichLoop_eq]
    refine ⟨⟨arts.map (enrich1 up), hres⟩, ?_, ?_⟩
    · intro hup
      exfalso
      rw [hup] at hs
      have h0 : search_articles (effectiveMax mr) Transport.failure =
          .ok (Json.arr []) := rfl
      rw [h0] at hs
      injection hs with hs2
      injection hs2 with hs3
      rw [← hs3] at hfl
      simp [pyFalsy] at hfl
    · intro hup
      rw [hup] at hfd
      have h0 : tryReq (match httpGet (Transport.failure : Transport XmlInput) with
          | .error e => .error e
          | .ok xml => Except.ok (parse_xml_response xml)) [] =
          Except.ok ([] : List Article) := rfl
      rw [h0] at hfd
      injection hfd with hfd2
      rw [← hfd2] at hres
      simpa using hres

def upW : Upstream :=
  { searchResp := Transport.failure, fetchResp := Transport.failure,
    pageResp := fun _ => Transport.failure }

/-- Witness for C1 (amended): with every endpoint failing at transport
level, the pipeline returns the empty list without raising. -/
theorem c1_no_raise_witness :
    (get_research_data upW "stroke" none).result = Except.ok [] :=
  (c1_no_raise upW "stroke" none rfl).2.1 rfl
